import Mathlib

/-!
Verification of the refresh-token store and session service of a small
JWT authentication API.

The store (`TokenStore` in the source, file `token.store.ts`) is a JS
`Map` from refresh-token string to a `StoredToken` record.  We embed it
as an association list; every state a JS `Map` can reach has pairwise
distinct keys, captured here by the predicate `WF`.  Timestamps are
`Date.now()` millisecond values, embedded as `Int`, and every operation
takes the current time `now` as an explicit argument.

The service (`AuthService` in the source, file `auth.service.ts`) signs
JWTs through an external library that is assumed correct; a signed token
is represented by its claim triple (`sub`, `iat`, `exp`), which the
library encodes injectively, so the store at the service level is keyed
by these triples.
-/

set_option autoImplicit false

/-- One entry of the store: `{ username, issuedAt, expiresAt }`
(`StoredToken` in `token.store.ts`). -/
structure StoredToken where
  username : String
  issuedAt : Int
  expiresAt : Int
deriving Repr, DecidableEq

/-- The backing `Map<token, StoredToken>` as an association list.
The key type is a parameter: the source uses strings; the service model
uses claim triples. -/
abbrev Store (κ : Type) := List (κ × StoredToken)

variable {κ : Type} [DecidableEq κ]

/-- `Map.get(k)`: first entry with key `k`, if any. -/
def mapGet (k : κ) : Store κ → Option StoredToken
  | [] => none
  | (k₁, v) :: rest => if k₁ = k then some v else mapGet k rest

/-- `Map.set(k, v)`: replace the entry for `k` in place, or append.
On a well-formed map there is at most one entry per key. -/
def mapSet (k : κ) (v : StoredToken) : Store κ → Store κ
  | [] => [(k, v)]
  | (k₁, v₁) :: rest =>
    if k₁ = k then (k, v) :: rest else (k₁, v₁) :: mapSet k v rest

/-- `Map.delete(k)`: remove the entry for `k`.  On a well-formed map
there is at most one such entry; removing every occurrence coincides
with removing it. -/
def mapDelete (k : κ) : Store κ → Store κ
  | [] => []
  | (k₁, v) :: rest =>
    if k₁ = k then mapDelete k rest else (k₁, v) :: mapDelete k rest

/-- Key sets a JS `Map` can reach are duplicate-free. -/
abbrev WF (s : Store κ) : Prop := (s.map Prod.fst).Nodup

/-- `TokenStore.saveToken(token, username, ttlSeconds)`:
`tokens.set(token, { username, issuedAt: now, expiresAt: now + ttlSeconds * 1000 })`. -/
def saveToken (token : κ) (username : String) (ttlSeconds : Int) (now : Int)
    (s : Store κ) : Store κ :=
  mapSet token { username := username, issuedAt := now,
                 expiresAt := now + ttlSeconds * 1000 } s

/-- `TokenStore.verifyToken(token)`: returns the stored username, or
`null`; deletes the entry when `Date.now() > stored.expiresAt` (lazy
expiry).  The second component is the store after the call. -/
def verifyToken (now : Int) (token : κ) (s : Store κ) :
    Option String × Store κ :=
  match mapGet token s with
  | none => (none, s)
  | some stored =>
    if now > stored.expiresAt then (none, mapDelete token s)
    else (some stored.username, s)

/-- `TokenStore.revokeToken(token)`: `tokens.delete(token)`. -/
def revokeToken (token : κ) (s : Store κ) : Store κ :=
  mapDelete token s

/-- `TokenStore.revokeAllUserTokens(username)`: delete every entry whose
`username` matches. -/
def revokeAllUserTokens (username : String) : Store κ → Store κ
  | [] => []
  | (k, v) :: rest =>
    if v.username = username then revokeAllUserTokens username rest
    else (k, v) :: revokeAllUserTokens username rest

/-- `TokenStore.cleanupExpired()`: delete every entry with
`now > stored.expiresAt`, counting the deletions; returns the cleaned
store and the count. -/
def cleanupExpired (now : Int) : Store κ → Store κ × Nat
  | [] => ([], 0)
  | (k, v) :: rest =>
    let r := cleanupExpired now rest
    if now > v.expiresAt then (r.1, r.2 + 1) else ((k, v) :: r.1, r.2)

/-- One public store operation, with its argument values. -/
inductive StoreOp (κ : Type) where
  | save (token : κ) (username : String) (ttlSeconds : Int)
  | verify (token : κ)
  | revoke (token : κ)
  | revokeAll (username : String)
  | sweep
deriving Repr, DecidableEq

/-- Effect of one operation on the store, at current time `now`. -/
def applyOp (now : Int) (s : Store κ) : StoreOp κ → Store κ
  | .save t u ttl => saveToken t u ttl now s
  | .verify t => (verifyToken now t s).2
  | .revoke t => revokeToken t s
  | .revokeAll u => revokeAllUserTokens u s
  | .sweep => (cleanupExpired now s).1

/-- Run a sequence of timestamped operations from a starting store. -/
def runOps : List (Int × StoreOp κ) → Store κ → Store κ
  | [], s => s
  | (now, op) :: rest, s => runOps rest (applyOp now s op)

/-- Whether an operation is a `save` with a positive `ttlSeconds`
(non-`save` operations pass vacuously). -/
def ttlPositive : StoreOp κ → Bool
  | .save _ _ ttl => 1 ≤ ttl
  | _ => true

/-- Every `save` in the sequence passes a positive `ttlSeconds`. -/
abbrev savesPositive (ops : List (Int × StoreOp κ)) : Prop :=
  ∀ e, e ∈ ops → ttlPositive e.2 = true

/-- A signed JWT, represented by its claim triple.  `app.jwt.sign` is
deterministic (HMAC over the serialized claims, no nonce), and the
assumed-correct external library encodes distinct claim triples as
distinct token strings, so two signed tokens coincide exactly when
their claims do.  `iat` and `exp` are on the same millisecond clock as
the store. -/
structure Jwt where
  sub : String
  iat : Int
  exp : Int
deriving Repr, DecidableEq

/-- `app.jwt.sign({ sub }, { expiresIn })`: claims are the subject, the
signing time, and the signing time plus the requested lifetime. -/
def jwtSign (sub : String) (now ttlSeconds : Int) : Jwt :=
  { sub := sub, iat := now, exp := now + ttlSeconds * 1000 }

/-- `app.jwt.verify(token)`: the library checks the signature (always
good for a token we signed) and the `exp` claim, returning the decoded
subject or failing. -/
def jwtVerify (now : Int) (t : Jwt) : Option String :=
  if now ≥ t.exp then none else some t.sub

/-- The two business errors of the service: `Error('Invalid
credentials')` from `login` and `Error('Refresh token is invalid or
revoked')` (or a library verification error) from `refresh`. -/
inductive AuthError where
  | credentialError
  | tokenError
deriving Repr, DecidableEq

/-- `TokenResponse` of `auth.types.ts`: both tokens plus the fixed
`tokenType: 'Bearer'` tag. -/
structure TokenResponse where
  accessToken : Jwt
  refreshToken : Jwt
  tokenType : String
deriving Repr, DecidableEq

/-- `AuthService.login(payload)` (`auth.service.ts`): reject unless the
pair is exactly `('admin', 'Admin@123')`; otherwise sign a 15-minute
access token and a 7-day refresh token, save the refresh token with
`ttlSeconds = 7 * 24 * 60 * 60`, and return both.  The store is
returned alongside the result (mutation happens only on success, after
the credential check). -/
def AuthService.login (username password : String) (now : Int)
    (s : Store Jwt) : Except AuthError TokenResponse × Store Jwt :=
  if username ≠ "admin" ∨ password ≠ "Admin@123" then
    (.error .credentialError, s)
  else
    let accessToken := jwtSign username now (15 * 60)
    let refreshToken := jwtSign username now (7 * 24 * 60 * 60)
    (.ok { accessToken := accessToken, refreshToken := refreshToken,
           tokenType := "Bearer" },
     saveToken refreshToken username (7 * 24 * 60 * 60) now s)

/-- `AuthService.refresh(refreshToken)` (`auth.service.ts`): store
lookup first (`verifyToken`, whose lazy deletion persists even when the
call then throws), then signature re-verification through the library,
then a fresh 15-minute access token for the decoded subject; the
incoming refresh token is returned unchanged. -/
def AuthService.refresh (refreshToken : Jwt) (now : Int)
    (s : Store Jwt) : Except AuthError TokenResponse × Store Jwt :=
  let vr := verifyToken now refreshToken s
  match vr.1 with
  | none => (.error .tokenError, vr.2)
  | some _ =>
    match jwtVerify now refreshToken with
    | none => (.error .tokenError, vr.2)
    | some sub =>
      (.ok { accessToken := jwtSign sub now (15 * 60),
             refreshToken := refreshToken, tokenType := "Bearer" },
       vr.2)

/-- `AuthService.logout(refreshToken)` (`auth.service.ts`): revoke and
return; there is no failing path. -/
def AuthService.logout (refreshToken : κ) (s : Store κ) :
    Except AuthError Unit × Store κ :=
  (.ok (), revokeToken refreshToken s)

theorem mapGet_mapSet_self (k : κ) (v : StoredToken) : ∀ s : Store κ,
    mapGet k (mapSet k v s) = some v
  | [] => by simp [mapSet, mapGet]
  | (k₁, v₁) :: rest => by
    by_cases h : k₁ = k
    · simp [mapSet, h, mapGet]
    · simp [mapSet, h, mapGet, mapGet_mapSet_self k v rest]

theorem mapGet_mapDelete_self (k : κ) : ∀ s : Store κ,
    mapGet k (mapDelete k s) = none
  | [] => by simp [mapDelete, mapGet]
  | (k₁, v₁) :: rest => by
    by_cases h : k₁ = k
    · simp [mapDelete, h, mapGet_mapDelete_self k rest]
    · simp [mapDelete, h, mapGet, mapGet_mapDelete_self k rest]

theorem mapDelete_of_not_mem (k : κ) : ∀ s : Store κ,
    k ∉ s.map Prod.fst → mapDelete k s = s
  | [] => fun _ => rfl
  | (k₁, v₁) :: rest => by
    intro h
    simp only [List.map_cons, List.mem_cons] at h
    push_neg at h
    have hne : ¬ k₁ = k := fun he => h.1 he.symm
    simp [mapDelete, hne, mapDelete_of_not_mem k rest h.2]

theorem mem_mapSet (k : κ) (v : StoredToken) (p : κ × StoredToken) :
    ∀ s : Store κ, p ∈ mapSet k v s → p = (k, v) ∨ p ∈ s
  | [] => by simp [mapSet]
  | (k₁, v₁) :: rest => by
    by_cases h : k₁ = k
    · simp only [mapSet, h, if_pos, List.mem_cons]
      rintro (rfl | hp) <;> tauto
    · simp only [mapSet, h, if_neg, not_false_iff, List.mem_cons]
      rintro (rfl | hp)
      · tauto
      · rcases mem_mapSet k v p rest hp with h1 | h1 <;> tauto

theorem mem_mapDelete (k : κ) (p : κ × StoredToken) :
    ∀ s : Store κ, p ∈ mapDelete k s → p ∈ s
  | [] => by simp [mapDelete]
  | (k₁, v₁) :: rest => by
    by_cases h : k₁ = k
    · simp only [mapDelete, h, if_pos, List.mem_cons]
      exact fun hp => Or.inr (mem_mapDelete k p rest hp)
    · simp only [mapDelete, h, if_neg, not_false_iff, List.mem_cons]
      rintro (rfl | hp)
      · tauto
      · exact Or.inr (mem_mapDelete k p rest hp)

omit [DecidableEq κ] in
theorem mem_revokeAllUserTokens (u : String) (p : κ × StoredToken) :
    ∀ s : Store κ, p ∈ revokeAllUserTokens u s → p ∈ s
  | [] => by simp [revokeAllUserTokens]
  | (k₁, v₁) :: rest => by
    by_cases h : v₁.username = u
    · simp only [revokeAllUserTokens, h, if_pos, List.mem_cons]
      exact fun hp => Or.inr (mem_revokeAllUserTokens u p rest hp)
    · simp only [revokeAllUserTokens, h, if_neg, not_false_iff,
        List.mem_cons]
      rintro (rfl | hp)
      · tauto
      · exact Or.inr (mem_revokeAllUserTokens u p rest hp)

omit [DecidableEq κ] in
theorem revokeAllUserTokens_eq_filter (u : String) : ∀ s : Store κ,
    revokeAllUserTokens u s = s.filter (fun p => !(p.2.username == u))
  | [] => rfl
  | (k₁, v₁) :: rest => by
    by_cases h : v₁.username = u <;>
      simp [revokeAllUserTokens, h, List.filter_cons,
        revokeAllUserTokens_eq_filter u rest]

omit [DecidableEq κ] in
theorem cleanupExpired_fst (now : Int) : ∀ s : Store κ,
    (cleanupExpired now s).1 = s.filter (fun p => !decide (p.2.expiresAt < now))
  | [] => rfl
  | (k₁, v₁) :: rest => by
    by_cases h : v₁.expiresAt < now <;>
      simp [cleanupExpired, h, List.filter_cons, cleanupExpired_fst now rest]

omit [DecidableEq κ] in
theorem cleanupExpired_snd (now : Int) : ∀ s : Store κ,
    (cleanupExpired now s).2 =
      (s.filter (fun p => decide (p.2.expiresAt < now))).length
  | [] => rfl
  | (k₁, v₁) :: rest => by
    by_cases h : v₁.expiresAt < now <;>
      simp [cleanupExpired, h, List.filter_cons, cleanupExpired_snd now rest]

theorem verifyToken_snd_cases (now : Int) (t : κ) (s : Store κ) :
    (verifyToken now t s).2 = s ∨ (verifyToken now t s).2 = mapDelete t s := by
  unfold verifyToken
  cases mapGet t s with
  | none => exact Or.inl rfl
  | some stored =>
    by_cases h : stored.expiresAt < now <;> simp [h]

theorem mapDelete_idem (k : κ) : ∀ s : Store κ,
    mapDelete k (mapDelete k s) = mapDelete k s
  | [] => rfl
  | (k₁, v₁) :: rest => by
    by_cases h : k₁ = k <;> simp [mapDelete, h, mapDelete_idem k rest]

/-- Deleting the (unique, by `WF`) expired entry found under key `k`
lowers the expired-entry count of a sweep at the same time by one. -/
theorem cleanupExpired_mapDelete_count (now : Int) (k : κ) :
    ∀ s : Store κ, WF s → ∀ v, mapGet k s = some v → v.expiresAt < now →
      (cleanupExpired now (mapDelete k s)).2 + 1 = (cleanupExpired now s).2
  | [] => by intro _ v hget; simp [mapGet] at hget
  | (k₁, v₁) :: rest => by
    intro hwf v hget hexp
    simp only [WF, List.map_cons, List.nodup_cons] at hwf
    by_cases h : k₁ = k
    · rw [mapGet, if_pos h, Option.some_inj] at hget
      rw [show mapDelete k ((k₁, v₁) :: rest) = mapDelete k rest by
            simp [mapDelete, h],
          mapDelete_of_not_mem k rest (h ▸ hwf.1)]
      rw [← hget] at hexp
      simp [cleanupExpired, hexp]
    · rw [mapGet, if_neg h] at hget
      have ih := cleanupExpired_mapDelete_count now k rest hwf.2 v hget hexp
      rw [show mapDelete k ((k₁, v₁) :: rest) = (k₁, v₁) :: mapDelete k rest by
            simp [mapDelete, h]]
      by_cases h₁ : v₁.expiresAt < now <;>
        simp only [cleanupExpired, h₁, if_pos, if_neg, not_false_iff] <;>
        omega

/-- Every record of the store satisfies the lifetime invariant
`expiresAt > issuedAt`. -/
def recordsOk (s : Store κ) : Prop :=
  ∀ p, p ∈ s → p.2.issuedAt < p.2.expiresAt

theorem recordsOk_applyOp (now : Int) (s : Store κ) (op : StoreOp κ)
    (hs : recordsOk s) (hop : ttlPositive op = true) :
    recordsOk (applyOp now s op) := by
  cases op with
  | save t u ttl =>
    intro p hp
    rcases mem_mapSet t _ p s hp with rfl | hp₁
    · have httl : (1 : Int) ≤ ttl := by
        simpa [ttlPositive] using hop
      have : (1 : Int) * 1000 ≤ ttl * 1000 :=
        mul_le_mul_of_nonneg_right httl (by norm_num)
      simp only []
      omega
    · exact hs p hp₁
  | verify t =>
    intro p hp
    rcases verifyToken_snd_cases now t s with he | he <;>
      rw [show applyOp now s (StoreOp.verify t) = (verifyToken now t s).2
            from rfl, he] at hp
    · exact hs p hp
    · exact hs p (mem_mapDelete t p s hp)
  | revoke t =>
    intro p hp
    exact hs p (mem_mapDelete t p s hp)
  | revokeAll u =>
    intro p hp
    exact hs p (mem_revokeAllUserTokens u p s hp)
  | sweep =>
    intro p hp
    rw [show applyOp now s StoreOp.sweep = (cleanupExpired now s).1 from rfl,
      cleanupExpired_fst] at hp
    exact hs p (List.mem_of_mem_filter hp)

theorem recordsOk_runOps : ∀ ops : List (Int × StoreOp κ), ∀ s : Store κ,
    recordsOk s → savesPositive ops → recordsOk (runOps ops s)
  | [], _, hs, _ => hs
  | (now, op) :: rest, s, hs, hops =>
    recordsOk_runOps rest (applyOp now s op)
      (recordsOk_applyOp now s op hs (hops (now, op) (List.mem_cons_self _ _)))
      (fun e he => hops e (List.mem_cons_of_mem _ he))

theorem verifyToken_saveToken (token : κ) (u : String) (ttl now now₂ : Int)
    (s : Store κ) (h : ¬ now + ttl * 1000 < now₂) :
    verifyToken now₂ token (saveToken token u ttl now s) =
      (some u, saveToken token u ttl now s) := by
  unfold verifyToken saveToken
  rw [mapGet_mapSet_self]
  simp [h]

theorem login_ok (now : Int) (s : Store Jwt) :
    AuthService.login "admin" "Admin@123" now s =
      (Except.ok { accessToken := jwtSign "admin" now (15 * 60),
                   refreshToken := jwtSign "admin" now (7 * 24 * 60 * 60),
                   tokenType := "Bearer" },
       saveToken (jwtSign "admin" now (7 * 24 * 60 * 60)) "admin"
         (7 * 24 * 60 * 60) now s) := by
  unfold AuthService.login
  rw [if_neg (by simp)]

theorem refresh_ok (rt : Jwt) (now : Int) (s : Store Jwt) (u : String)
    (hv : (verifyToken now rt s).1 = some u) (hj : now < rt.exp) :
    AuthService.refresh rt now s =
      (Except.ok { accessToken := jwtSign rt.sub now (15 * 60),
                   refreshToken := rt, tokenType := "Bearer" },
       (verifyToken now rt s).2) := by
  simp only [AuthService.refresh]
  rw [hv]
  simp [jwtVerify, not_le.mpr hj]

/-- C1: for every well-formed store state and token, `verifyToken`
returns `none` and leaves the store unchanged when no record is present;
when a record is present and `now > expiresAt` it deletes that record
and returns `none` (a later `verifyToken` of the same token is also
`none` and leaves the store as is, and a sweep at the same time counts
one fewer record); otherwise it returns the record's `username` and
leaves the store unchanged. -/
theorem C1_verifyToken_cases (s : Store String) (now now₂ : Int)
    (token : String) (hwf : WF s) :
    (mapGet token s = none → verifyToken now token s = (none, s)) ∧
    (∀ st, mapGet token s = some st → st.expiresAt < now →
      verifyToken now token s = (none, mapDelete token s) ∧
      mapGet token (mapDelete token s) = none ∧
      verifyToken now₂ token (mapDelete token s) =
        (none, mapDelete token s) ∧
      (cleanupExpired now (mapDelete token s)).2 + 1 =
        (cleanupExpired now s).2) ∧
    (∀ st, mapGet token s = some st → ¬ st.expiresAt < now →
      verifyToken now token s = (some st.username, s)) := by
  refine ⟨fun h => by simp [verifyToken, h], fun st hget hexp => ?_,
    fun st hget hexp => by simp [verifyToken, hget, hexp]⟩
  refine ⟨by simp [verifyToken, hget, hexp],
    mapGet_mapDelete_self token s,
    by simp [verifyToken, mapGet_mapDelete_self token s],
    cleanupExpired_mapDelete_count now token s hwf st hget hexp⟩

theorem C1_verifyToken_cases_witness :
    verifyToken 10 "t"
        [("t", ({ username := "u", issuedAt := 0, expiresAt := 5 } :
          StoredToken))] =
      (none,
       mapDelete "t"
         [("t", ({ username := "u", issuedAt := 0, expiresAt := 5 } :
           StoredToken))]) :=
  ((C1_verifyToken_cases
      [("t", { username := "u", issuedAt := 0, expiresAt := 5 })] 10 11 "t"
      (by decide)).2.1
    { username := "u", issuedAt := 0, expiresAt := 5 }
    (by decide) (by decide)).1

/-- C2 (amended): after any sequence of store operations starting from
the empty store in which every `save` passes a positive `ttlSeconds`,
every record present satisfies `expiresAt > issuedAt`.  (With
`ttlSeconds = 0` the code stores a record with `expiresAt = issuedAt`,
so the claim fails for arbitrary ttl arguments; see the
counterexample.) -/
theorem C2_expiry_invariant (ops : List (Int × StoreOp String))
    (h : savesPositive ops) :
    ∀ p, p ∈ runOps ops ([] : Store String) →
      p.2.issuedAt < p.2.expiresAt :=
  recordsOk_runOps ops []
    (fun p hp => absurd hp (List.not_mem_nil p)) h

/-- C2 fails as stated: a `save` with `ttlSeconds = 0` at time `0`
leaves a record with `issuedAt = expiresAt = 0` in the store. -/
theorem C2_counterexample :
    ("t", ({ username := "u", issuedAt := 0, expiresAt := 0 } :
        StoredToken)) ∈
      runOps [((0 : Int), StoreOp.save "t" "u" 0)] ([] : Store String) ∧
    ¬ ((0 : Int) < 0) := by
  constructor
  · simp [runOps, applyOp, saveToken, mapSet]
  · decide

theorem C2_expiry_invariant_witness :
    ("t", ({ username := "u", issuedAt := 0, expiresAt := 1000 } :
        StoredToken)) ∈
      runOps [((0 : Int), StoreOp.save "t" "u" 1)] ([] : Store String) ∧
    (0 : Int) < 1000 := by
  constructor
  · simp [runOps, applyOp, saveToken, mapSet]
  · exact C2_expiry_invariant [((0 : Int), StoreOp.save "t" "u" 1)]
      (by decide)
      ("t", { username := "u", issuedAt := 0, expiresAt := 1000 })
      (by simp [runOps, applyOp, saveToken, mapSet])

/-- C5: for every store, owner, token and non-negative ttl, verifying a
token immediately after saving it (same current time) returns the
owner. -/
theorem C5_save_then_verify (s : Store String) (token owner : String)
    (ttl now : Int) (h : 0 ≤ ttl) :
    (verifyToken now token (saveToken token owner ttl now s)).1 =
      some owner := by
  rw [verifyToken_saveToken token owner ttl now now s (by nlinarith)]

theorem C5_save_then_verify_witness :
    (verifyToken 0 "t" (saveToken "t" "u" 1 0 ([] : Store String))).1 =
      some "u" :=
  C5_save_then_verify [] "t" "u" 1 0 (by decide)

/-- C6: `revokeToken` is idempotent (revoking twice equals revoking
once) and is a total function, never failing, including on tokens that
are absent or already revoked. -/
theorem C6_revoke_idempotent (s : Store String) (token : String) :
    revokeToken token (revokeToken token s) = revokeToken token s :=
  mapDelete_idem token s

/-- C7: `revokeAllUserTokens(owner)` keeps exactly the entries whose
`username` differs from `owner`, in place: afterwards no record of that
owner remains, while every record of any other owner is still present
unchanged, and nothing new appears. -/
theorem C7_revokeAll_frame (s : Store String) (owner : String) :
    revokeAllUserTokens owner s =
      s.filter (fun p => !(p.2.username == owner)) ∧
    (∀ p : String × StoredToken,
      p ∈ revokeAllUserTokens owner s → p.2.username ≠ owner) ∧
    (∀ p : String × StoredToken,
      p ∈ s → p.2.username ≠ owner → p ∈ revokeAllUserTokens owner s) ∧
    (∀ p : String × StoredToken,
      p ∈ revokeAllUserTokens owner s → p ∈ s) := by
  refine ⟨revokeAllUserTokens_eq_filter owner s, ?_, ?_,
    fun p hp => mem_revokeAllUserTokens owner p s hp⟩
  · intro p hp
    rw [revokeAllUserTokens_eq_filter] at hp
    simpa using List.of_mem_filter hp
  · intro p hp hne
    rw [revokeAllUserTokens_eq_filter]
    exact List.mem_filter.mpr ⟨hp, by simpa using hne⟩

theorem C7_revokeAll_frame_witness :
    (("t", ({ username := "v", issuedAt := 0, expiresAt := 5 } :
        StoredToken)) : String × StoredToken) ∈
      revokeAllUserTokens "u"
        [("t", { username := "v", issuedAt := 0, expiresAt := 5 }),
         ("r", { username := "u", issuedAt := 0, expiresAt := 5 })] :=
  (C7_revokeAll_frame
      [("t", { username := "v", issuedAt := 0, expiresAt := 5 }),
       ("r", { username := "u", issuedAt := 0, expiresAt := 5 })]
      "u").2.2.1
    ("t", { username := "v", issuedAt := 0, expiresAt := 5 })
    (by simp) (by simp)

/-- C8: `cleanupExpired` keeps exactly the records with
`¬ (expiresAt < now)` — so it removes exactly those with
`expiresAt < now` and leaves every other record unchanged — and returns
the number of records it removed. -/
theorem C8_sweep_removes_expired (s : Store String) (now : Int) :
    (cleanupExpired now s).1 =
      s.filter (fun p => !decide (p.2.expiresAt < now)) ∧
    (cleanupExpired now s).2 =
      (s.filter (fun p => decide (p.2.expiresAt < now))).length :=
  ⟨cleanupExpired_fst now s, cleanupExpired_snd now s⟩

/-- C9: `AuthService.logout` succeeds for every input token and store
state — including a token that is absent or already revoked — and never
produces a business error. -/
theorem C9_logout_never_errors (refreshToken : String)
    (s : Store String) :
    (AuthService.logout refreshToken s).1 = Except.ok () := rfl

/-- C10: expiry is strict at the store interface: a record whose
`expiresAt` equals the current time is still valid — `verifyToken`
returns its owner and leaves the store unchanged, and `cleanupExpired`
keeps it and does not count it (the count only covers records with
`expiresAt < now`). -/
theorem C10_expiry_boundary (s : Store String) (token : String)
    (st : StoredToken) (now : Int)
    (hget : mapGet token s = some st) (heq : st.expiresAt = now) :
    verifyToken now token s = (some st.username, s) ∧
    (∀ p : String × StoredToken, p ∈ s → p.2.expiresAt = now →
      p ∈ (cleanupExpired now s).1) ∧
    (cleanupExpired now s).2 =
      (s.filter (fun p => decide (p.2.expiresAt < now))).length := by
  refine ⟨?_, ?_, cleanupExpired_snd now s⟩
  · have hlt : ¬ st.expiresAt < now := by omega
    simp [verifyToken, hget, hlt]
  · intro p hp hpe
    rw [cleanupExpired_fst]
    exact List.mem_filter.mpr ⟨hp, by simp [hpe]⟩

theorem C10_expiry_boundary_witness :
    verifyToken 5 "t"
        [("t", ({ username := "u", issuedAt := 0, expiresAt := 5 } :
          StoredToken))] =
      (some "u",
       [("t", ({ username := "u", issuedAt := 0, expiresAt := 5 } :
         StoredToken))]) :=
  (C10_expiry_boundary
      [("t", { username := "u", issuedAt := 0, expiresAt := 5 })] "t"
      { username := "u", issuedAt := 0, expiresAt := 5 } 5
      (by simp [mapGet]) (by decide)).1

/-- C3 fails as stated: when the refresh call happens at the same
token-clock timestamp as the login (here both at time `0`), the signing
primitive is deterministic over the same claims, so the refresh succeeds
but returns exactly the access token that login returned — not a
different one. -/
theorem C3_counterexample :
    (AuthService.login "admin" "Admin@123" 0 ([] : Store Jwt)).1 =
      Except.ok { accessToken := jwtSign "admin" 0 (15 * 60),
                  refreshToken := jwtSign "admin" 0 (7 * 24 * 60 * 60),
                  tokenType := "Bearer" } ∧
    (AuthService.refresh (jwtSign "admin" 0 (7 * 24 * 60 * 60)) 0
        (AuthService.login "admin" "Admin@123" 0 ([] : Store Jwt)).2).1 =
      Except.ok { accessToken := jwtSign "admin" 0 (15 * 60),
                  refreshToken := jwtSign "admin" 0 (7 * 24 * 60 * 60),
                  tokenType := "Bearer" } := by
  constructor
  · rw [login_ok]
  · rw [login_ok]
    rw [refresh_ok _ 0 _ "admin"
      (by rw [verifyToken_saveToken _ "admin" _ 0 0 _ (by norm_num)])
      (by norm_num [jwtSign])]
    rfl

/-- C3 (amended): if login with the known-valid pair happens at time
`t₀` and refresh with the returned refresh token happens at a strictly
later token-clock time `t₁` still inside the 7-day refresh window, then
the refresh succeeds, its access token differs from the one login
returned, and its refresh token is exactly the one passed in.  (At
`t₁ = t₀` the code returns an identical access token; see the
counterexample.) -/
theorem C3_login_then_refresh (t₀ t₁ : Int) (s : Store Jwt)
    (h₀₁ : t₀ < t₁) (hwin : t₁ < t₀ + 7 * 24 * 60 * 60 * 1000) :
    (AuthService.login "admin" "Admin@123" t₀ s).1 =
      Except.ok { accessToken := jwtSign "admin" t₀ (15 * 60),
                  refreshToken := jwtSign "admin" t₀ (7 * 24 * 60 * 60),
                  tokenType := "Bearer" } ∧
    (AuthService.refresh (jwtSign "admin" t₀ (7 * 24 * 60 * 60)) t₁
        (AuthService.login "admin" "Admin@123" t₀ s).2).1 =
      Except.ok { accessToken := jwtSign "admin" t₁ (15 * 60),
                  refreshToken := jwtSign "admin" t₀ (7 * 24 * 60 * 60),
                  tokenType := "Bearer" } ∧
    jwtSign "admin" t₁ (15 * 60) ≠ jwtSign "admin" t₀ (15 * 60) := by
  refine ⟨by rw [login_ok], ?_, ?_⟩
  · rw [login_ok]
    rw [refresh_ok _ t₁ _ "admin"
      (by rw [verifyToken_saveToken _ "admin" _ t₀ t₁ _ (by omega)])
      (by simp only [jwtSign]; omega)]
    rfl
  · simp only [jwtSign, ne_eq, Jwt.mk.injEq]
    omega

theorem C3_login_then_refresh_witness :
    (AuthService.login "admin" "Admin@123" 0 ([] : Store Jwt)).1 =
      Except.ok { accessToken := jwtSign "admin" 0 (15 * 60),
                  refreshToken := jwtSign "admin" 0 (7 * 24 * 60 * 60),
                  tokenType := "Bearer" } ∧
    (AuthService.refresh (jwtSign "admin" 0 (7 * 24 * 60 * 60)) 1
        (AuthService.login "admin" "Admin@123" 0 ([] : Store Jwt)).2).1 =
      Except.ok { accessToken := jwtSign "admin" 1 (15 * 60),
                  refreshToken := jwtSign "admin" 0 (7 * 24 * 60 * 60),
                  tokenType := "Bearer" } ∧
    jwtSign "admin" 1 (15 * 60) ≠ jwtSign "admin" 0 (15 * 60) :=
  C3_login_then_refresh 0 1 [] (by decide) (by decide)

/-- C4: any two credential pairs that both differ from
`('admin', 'Admin@123')` — wrong username, wrong password, or empty
fields — produce the same observable outcome from login: the same
`credentialError`, with the store left untouched in both runs. -/
theorem C4_credential_error_uniform (u₁ p₁ u₂ p₂ : String)
    (now₁ now₂ : Int) (s₁ s₂ : Store Jwt)
    (h₁ : ¬ (u₁ = "admin" ∧ p₁ = "Admin@123"))
    (h₂ : ¬ (u₂ = "admin" ∧ p₂ = "Admin@123")) :
    (AuthService.login u₁ p₁ now₁ s₁).1 =
      Except.error AuthError.credentialError ∧
    (AuthService.login u₂ p₂ now₂ s₂).1 =
      Except.error AuthError.credentialError ∧
    (AuthService.login u₁ p₁ now₁ s₁).1 =
      (AuthService.login u₂ p₂ now₂ s₂).1 ∧
    (AuthService.login u₁ p₁ now₁ s₁).2 = s₁ ∧
    (AuthService.login u₂ p₂ now₂ s₂).2 = s₂ := by
  have hc₁ : u₁ ≠ "admin" ∨ p₁ ≠ "Admin@123" := not_and_or.mp h₁
  have hc₂ : u₂ ≠ "admin" ∨ p₂ ≠ "Admin@123" := not_and_or.mp h₂
  unfold AuthService.login
  rw [if_pos hc₁, if_pos hc₂]
  exact ⟨rfl, rfl, rfl, rfl, rfl⟩

theorem C4_credential_error_uniform_witness :
    (AuthService.login "admin" "wrong" 0 ([] : Store Jwt)).1 =
      Except.error AuthError.credentialError ∧
    (AuthService.login "bob" "Admin@123" 1 ([] : Store Jwt)).1 =
      Except.error AuthError.credentialError ∧
    (AuthService.login "admin" "wrong" 0 ([] : Store Jwt)).1 =
      (AuthService.login "bob" "Admin@123" 1 ([] : Store Jwt)).1 ∧
    (AuthService.login "admin" "wrong" 0 ([] : Store Jwt)).2 =
      ([] : Store Jwt) ∧
    (AuthService.login "bob" "Admin@123" 1 ([] : Store Jwt)).2 =
      ([] : Store Jwt) :=
  C4_credential_error_uniform "admin" "wrong" "bob" "Admin@123" 0 1 [] []
    (by simp) (by simp)
